import Mathlib

/-!
Shallow embedding of the optimistic-move orchestration engine of the
`flow` terminal board application (src/model.rs, src/app.rs, src/main.rs),
together with theorems settling the specification claims.

Rust `usize` indices are modelled as `Nat` (the code never relies on
overflow; `saturating_sub` is `Nat` subtraction), `isize` directions as
`Int`, `Vec` as `List`, `Option`/`Result` as `Option`/`Except`.
Out-of-range `Vec` indexing would panic in Rust; here it is modelled with
`getD` against a default element, and the proofs establish that every
index used by the code is in range, so the default is never consulted.
-/

namespace Flow

/-- src/model.rs: `Card { id, title, description }`. -/
structure Card where
  id : String
  title : String
  description : String
deriving DecidableEq, Repr, Inhabited

/-- src/model.rs: `Column { id, title, cards: Vec<Card> }`. -/
structure Column where
  id : String
  title : String
  cards : List Card
deriving DecidableEq, Repr, Inhabited

/-- src/model.rs: `Board { columns: Vec<Column> }`. -/
structure Board where
  columns : List Column
deriving DecidableEq, Repr, Inhabited

/-- src/app.rs: the `Action` enum. -/
inductive Action where
  | Quit
  | CloseOrQuit
  | FocusLeft
  | FocusRight
  | SelectUp
  | SelectDown
  | MoveLeft
  | MoveRight
  | ToggleDetail
  | Refresh
deriving DecidableEq, Repr

/-- src/app.rs: the `App` struct (board, cursor, detail flag, banner). -/
structure App where
  board : Board
  col : Nat
  row : Nat
  detail_open : Bool
  banner : Option String
deriving DecidableEq, Repr, Inhabited

/-- Rust `self.board.columns[i]`, total via a default column; every use
in the embedded code is proved in range. -/
def getColumn (b : Board) (i : Nat) : Column :=
  (b.columns.get? i).getD ⟨"", "", []⟩

/-- Replace column `i` of the board (models in-place mutation of
`self.board.columns[i]`). -/
def setColumn (b : Board) (i : Nat) (c : Column) : Board :=
  ⟨b.columns.set i c⟩

/-- src/app.rs: `App::new`. -/
def App.new (b : Board) : App :=
  { board := b, col := 0, row := 0, detail_open := false, banner := none }

/-- src/app.rs: `App::reset_cursor`. -/
def App.reset_cursor (a : App) : App :=
  { a with col := 0, row := 0 }

/-- src/app.rs: `App::clamp_index(idx, delta, max)`. -/
def App.clamp_index (idx : Nat) (delta : Int) (mx : Nat) : Nat :=
  if delta < 0 then idx - (-delta).toNat
  else min (idx + delta.toNat) mx

/-- src/app.rs: `App::col_len` —
`self.board.columns.get(self.col).map(|c| c.cards.len()).unwrap_or(0)`. -/
def App.col_len (a : App) : Nat :=
  ((a.board.columns.get? a.col).map (fun c => c.cards.length)).getD 0

/-- src/app.rs: `App::clamp_row`. -/
def App.clamp_row (a : App) : App :=
  let len := a.col_len
  { a with row := if len = 0 then 0 else min a.row (len - 1) }

/-- src/app.rs: `App::dst_col(dir)`. -/
def App.dst_col (a : App) (dir : Int) : Option Nat :=
  let dst : Int := (a.col : Int) + dir
  if dst < 0 then none
  else
    let d := dst.toNat
    if d < a.board.columns.length then some d else none

/-- src/app.rs: `App::clamp`. -/
def App.clamp (a : App) : App :=
  if a.board.columns.isEmpty then a.reset_cursor
  else
    App.clamp_row { a with col := min a.col (a.board.columns.length - 1) }

/-- src/app.rs: `App::focus(delta)`. -/
def App.focus (a : App) (delta : Int) : App :=
  if a.board.columns.isEmpty then a.reset_cursor
  else
    App.clamp_row
      { a with col := App.clamp_index a.col delta (a.board.columns.length - 1) }

/-- src/app.rs: `App::select(delta)`. -/
def App.select (a : App) (delta : Int) : App :=
  let len := a.col_len
  if len = 0 then { a with row := 0 }
  else { a with row := App.clamp_index a.row delta (len - 1) }

/-- src/app.rs: `App::apply(action)`; the returned `Bool` is Rust's
return value (`true` requests quit), paired with the mutated `App`. -/
def App.apply (a : App) (act : Action) : Bool × App :=
  match act with
  | .Quit => (true, a)
  | .CloseOrQuit =>
      if a.detail_open then (false, { a with detail_open := false })
      else (true, a)
  | .FocusLeft => (false, a.focus (-1))
  | .FocusRight => (false, a.focus 1)
  | .SelectUp => (false, a.select (-1))
  | .SelectDown => (false, a.select 1)
  | .ToggleDetail => (false, { a with detail_open := !a.detail_open })
  | .Refresh | .MoveLeft | .MoveRight => (false, a)

/-- src/app.rs: `App::optimistic_move(dir)`.  The Rust method mutates
`self` and returns `Option<(String, String)>`; here it returns the pair
of the result and the mutated `App`.  Note the Rust code calls
`self.clamp()` before deciding whether the move is possible, so the
cursor is clamped even on the no-op paths that follow the early
empty-board return. -/
def App.optimistic_move (a : App) (dir : Int) :
    Option (String × String) × App :=
  if a.board.columns.isEmpty then (none, a)
  else
    let a1 := a.clamp
    match a1.dst_col dir with
    | none => (none, a1)
    | some dst =>
        let src := a1.col
        if (getColumn a1.board src).cards.isEmpty then (none, a1)
        else
          let card := (getColumn a1.board src).cards.getD a1.row default
          let cardId := card.id
          let b1 := setColumn a1.board src
            { getColumn a1.board src with
                cards := (getColumn a1.board src).cards.eraseIdx a1.row }
          let toColId := (getColumn b1 dst).id
          let b2 := setColumn b1 dst
            { getColumn b1 dst with
                cards := (getColumn b1 dst).cards ++ [card] }
          let newRow := (getColumn b2 dst).cards.length - 1
          (some (cardId, toColId),
            { a1 with board := b2, col := dst, row := newRow })

/-! ## The orchestration loop of src/main.rs

`run` owns: the `App`, an optional in-flight receiver `move_rx`, the
FIFO `move_queue : VecDeque<(String, String)>` with
`MAX_QUEUE_SIZE = 64`, and the `quitting` flag.  The receiver carries a
`MoveOutcome = Result<Option<Board>, String>`.  The loop body is: if in
flight, `try_recv` and handle the outcome; exit if
`quitting && move_rx.is_none() && move_queue.is_empty()`; draw; poll for
a key and handle the resulting `Action`.  Terminal drawing and the
provider are external; a poll cycle is modelled as an event carrying
what `try_recv` would return, the optional input action, and what
`provider.load_board()` would return if `Refresh` consulted it. -/

/-- What `rx.try_recv()` yields in one poll cycle: a message
(`Result<Option<Board>, String>`), `Empty`, or `Disconnected`. -/
inductive RecvResult where
  | msg (m : Except String (Option Board))
  | empty
  | disconnected
deriving Repr

/-- The foreground state owned by `run` (src/main.rs lines 96-101).
`inFlight` models `move_rx.is_some()`; the receiver object itself
carries no data the loop inspects other than through `try_recv`. -/
structure LoopState where
  app : App
  inFlight : Bool
  queue : List (String × String)
  quitting : Bool
deriving DecidableEq, Repr

/-- src/main.rs: `MAX_QUEUE_SIZE`. -/
def MAX_QUEUE_SIZE : Nat := 64

/-- src/main.rs: `update_quit_banner` (acts on the app's banner only
when `quitting`). -/
def update_quit_banner (a : App) (quitting : Bool)
    (queueLen : Nat) (moveInFlight : Bool) : App :=
  if !quitting then a
  else
    let pending := queueLen + (if moveInFlight then 1 else 0)
    { a with
        banner :=
          if pending = 0 then none
          else some ("Finishing " ++ toString pending ++
            " pending moves before quit...") }

/-- src/main.rs lines 104-139: handling of `rx.try_recv()` when a move
is in flight.  Note that the `Disconnected` arm does not clear
`move_queue`, unlike the `Ok(Err(_))` arm. -/
def handleOutcome (s : LoopState) (r : RecvResult) : LoopState :=
  match r with
  | .msg (.ok (some b)) =>
      let app1 := App.clamp { s.app with board := b }
      let app2 := { app1 with
        banner := some "Move failed: reloaded board (optimistic state corrected)" }
      let s1 : LoopState :=
        { s with
            app := app2
            queue := []
            inFlight := false }
      { s1 with
          app := update_quit_banner s1.app s1.quitting s1.queue.length s1.inFlight }
  | .msg (.ok none) =>
      let s1 : LoopState :=
        match s.queue with
        | (_cardId, _dst) :: rest =>
            { s with
                inFlight := true
                queue := rest
                app := { s.app with
                  banner := some ("Moving... (" ++ toString rest.length ++ " queued)") } }
        | [] =>
            { s with
                inFlight := false
                app := { s.app with banner := none } }
      { s1 with
          app := update_quit_banner s1.app s1.quitting s1.queue.length s1.inFlight }
  | .msg (.error m) =>
      let s1 : LoopState :=
        { s with
            app := { s.app with banner := some ("Move failed: " ++ m) }
            queue := []
            inFlight := false }
      { s1 with
          app := update_quit_banner s1.app s1.quitting s1.queue.length s1.inFlight }
  | .empty => s
  | .disconnected =>
      let s1 : LoopState :=
        { s with
            app := { s.app with banner := some "Move failed: worker disconnected" }
            inFlight := false }
      { s1 with
          app := update_quit_banner s1.app s1.quitting s1.queue.length s1.inFlight }

/-- src/main.rs lines 157-193: a `MoveLeft`/`MoveRight` command with
direction `dir`.  With a move in flight and the queue at capacity, only
the banner changes — `optimistic_move` is not called on that path. -/
def handleMoveCmd (s : LoopState) (dir : Int) : LoopState :=
  if s.inFlight then
    if MAX_QUEUE_SIZE ≤ s.queue.length then
      { s with app := { s.app with
          banner := some "Move queue full — too many pending moves" } }
    else
      match s.app.optimistic_move dir with
      | (some (cardId, dst), app1) =>
          let q := s.queue ++ [(cardId, dst)]
          { s with
              queue := q
              app := { app1 with
                banner := some ("Moving... (" ++ toString q.length ++ " queued)") } }
      | (none, app1) => { s with app := app1 }
  else
    match s.app.optimistic_move dir with
    | (some (_cardId, _dst), app1) =>
        { s with
            inFlight := true
            app := { app1 with banner := some "Moving..." } }
    | (none, app1) => { s with app := app1 }

/-- src/main.rs lines 147-227: handling of one input action.
`loadResult` is what `provider.load_board()` returns if `Refresh`
consults it.  `none` models leaving `run` (the `break` / drain return);
`some s` continues the loop with state `s`. -/
def handleInput (s : LoopState) (a : Action)
    (loadResult : Except String Board) : Option LoopState :=
  if s.quitting ∧ (a = .MoveLeft ∨ a = .MoveRight) then some s
  else
    match a with
    | .MoveLeft => some (handleMoveCmd s (-1))
    | .MoveRight => some (handleMoveCmd s 1)
    | .Refresh =>
        if s.quitting then some s
        else
          match loadResult with
          | .ok b =>
              some { s with app :=
                { s.app with board := b, col := 0, row := 0, banner := none } }
          | .error e =>
              some { s with app :=
                { s.app with banner := some ("Refresh failed: " ++ toString e) } }
    | _ =>
        let (quitReq, app1) := s.app.apply a
        if quitReq then
          if s.inFlight ∨ s.queue ≠ [] then
            let s1 : LoopState := { s with app := app1, quitting := true }
            some { s1 with
              app := update_quit_banner s1.app true s1.queue.length s1.inFlight }
          else none
        else some { s with app := app1 }

/-- One poll cycle's external events: what `try_recv` would return,
the key action (if any), and the provider's answer to a `load_board`. -/
structure Cycle where
  recv : RecvResult
  input : Option Action
  load : Except String Board
deriving Repr

/-- One iteration of the `loop` in `run` (src/main.rs lines 103-228):
process the worker outcome if one is in flight, test the drain-exit
condition, then handle input.  `none` means `run` returned. -/
def step (s : LoopState) (c : Cycle) : Option LoopState :=
  let s1 := if s.inFlight then handleOutcome s c.recv else s
  if s1.quitting ∧ s1.inFlight = false ∧ s1.queue = [] then none
  else
    match c.input with
    | none => some s1
    | some a => handleInput s1 a c.load

/-- Iterate `step` over a list of poll cycles; once the loop has
exited (`none`) it stays exited. -/
def runLoop (s : LoopState) (cs : List Cycle) : Option LoopState :=
  match cs with
  | [] => some s
  | c :: rest =>
      match step s c with
      | none => none
      | some s1 => runLoop s1 rest

/-! ## Derived notions used by the claims -/

/-- The cursor invariant of spec section 3: with at least one column,
`col` is a valid index and `row` is a valid index into the focused
column (or `0` when that column is empty); an empty board forces
`(0, 0)`. -/
def validCursor (a : App) : Prop :=
  if a.board.columns = [] then a.col = 0 ∧ a.row = 0
  else
    a.col < a.board.columns.length ∧
      (if (getColumn a.board a.col).cards = [] then a.row = 0
       else a.row < (getColumn a.board a.col).cards.length)

instance (a : App) : Decidable (validCursor a) := by
  unfold validCursor
  infer_instance

/-- The no-op condition of spec section 4.1 in the claims' wording: the
board has no columns, or the focused column has no cards, or there is
no column in the requested direction (`col + dir` out of range). -/
def noOpCond (a : App) (dir : Int) : Prop :=
  a.board.columns = [] ∨
  (getColumn a.board a.col).cards = [] ∨
  ((a.col : Int) + dir < 0 ∨
    a.board.columns.length ≤ ((a.col : Int) + dir).toNat)

instance (a : App) (dir : Int) : Decidable (noOpCond a dir) := by
  unfold noOpCond
  infer_instance

/-- The multiset of all cards on the board, across all columns. -/
def boardCards (b : Board) : Multiset Card :=
  (b.columns.map (fun c => (c.cards : Multiset Card))).sum

/-! ## Helper lemmas about the cursor functions -/

theorem col_len_eq (a : App) :
    a.col_len = (getColumn a.board a.col).cards.length := by
  unfold App.col_len getColumn
  cases h : a.board.columns.get? a.col <;> simp [h]

theorem clamp_board (a : App) : a.clamp.board = a.board := by
  unfold App.clamp App.clamp_row App.reset_cursor
  by_cases h : a.board.columns.isEmpty <;> simp [h]

theorem clamp_banner (a : App) : a.clamp.banner = a.banner := by
  unfold App.clamp App.clamp_row App.reset_cursor
  by_cases h : a.board.columns.isEmpty <;> simp [h]

theorem clamp_detail (a : App) : a.clamp.detail_open = a.detail_open := by
  unfold App.clamp App.clamp_row App.reset_cursor
  by_cases h : a.board.columns.isEmpty <;> simp [h]

theorem clamp_cursor_of_empty (a : App) (h : a.board.columns = []) :
    a.clamp.col = 0 ∧ a.clamp.row = 0 := by
  unfold App.clamp App.reset_cursor
  simp [h, List.isEmpty_iff]

theorem clamp_col_of_ne (a : App) (h : a.board.columns ≠ []) :
    a.clamp.col = min a.col (a.board.columns.length - 1) := by
  have hne : a.board.columns.isEmpty = false := by
    simp [List.isEmpty_iff, h]
  unfold App.clamp App.clamp_row
  simp [hne]

theorem clamp_row_of_ne (a : App) (h : a.board.columns ≠ []) :
    a.clamp.row =
      (if (getColumn a.board (min a.col (a.board.columns.length - 1))).cards.length = 0
       then 0
       else min a.row
        ((getColumn a.board (min a.col (a.board.columns.length - 1))).cards.length - 1)) := by
  have hne : a.board.columns.isEmpty = false := by
    simp [List.isEmpty_iff, h]
  unfold App.clamp App.clamp_row
  simp only [hne, Bool.false_eq_true, if_false]
  have hcl : ({ a with col := min a.col (a.board.columns.length - 1) } : App).col_len
      = (getColumn a.board (min a.col (a.board.columns.length - 1))).cards.length := by
    rw [col_len_eq]
  simp only [hcl]

theorem validCursor_clamp (a : App) : validCursor a.clamp := by
  rcases Classical.em (a.board.columns = []) with h | h
  · have h0 := clamp_cursor_of_empty a h
    unfold validCursor
    rw [clamp_board, if_pos h]
    exact h0
  · have hc := clamp_col_of_ne a h
    have hr := clamp_row_of_ne a h
    have hlen : 0 < a.board.columns.length := List.length_pos.mpr h
    unfold validCursor
    rw [clamp_board, if_neg h, hc]
    refine ⟨lt_of_le_of_lt (min_le_right _ _) (Nat.sub_lt hlen Nat.one_pos), ?_⟩
    rcases Classical.em
        ((getColumn a.board (min a.col (a.board.columns.length - 1))).cards = [])
      with hcards | hcards
    · rw [if_pos hcards, hr, if_pos (by rw [hcards]; rfl)]
    · have hp : 0 <
          (getColumn a.board (min a.col (a.board.columns.length - 1))).cards.length :=
        List.length_pos.mpr hcards
      rw [if_neg hcards, hr, if_neg (Nat.pos_iff_ne_zero.mp hp)]
      exact lt_of_le_of_lt (min_le_right _ _) (Nat.sub_lt hp Nat.one_pos)

theorem app_ext (x y : App) (h1 : x.board = y.board) (h2 : x.col = y.col)
    (h3 : x.row = y.row) (h4 : x.detail_open = y.detail_open)
    (h5 : x.banner = y.banner) : x = y := by
  cases x
  cases y
  simp_all

theorem clamp_of_valid (a : App) (h : validCursor a) : a.clamp = a := by
  rcases Classical.em (a.board.columns = []) with he | he
  · unfold validCursor at h
    rw [if_pos he] at h
    exact app_ext _ _ (clamp_board a)
      ((clamp_cursor_of_empty a he).1.trans h.1.symm)
      ((clamp_cursor_of_empty a he).2.trans h.2.symm)
      (clamp_detail a) (clamp_banner a)
  · unfold validCursor at h
    rw [if_neg he] at h
    have hmin : min a.col (a.board.columns.length - 1) = a.col :=
      min_eq_left (Nat.le_sub_one_of_lt h.1)
    have hc : a.clamp.col = a.col := by rw [clamp_col_of_ne a he, hmin]
    have hr0 := clamp_row_of_ne a he
    rw [hmin] at hr0
    have hrow : a.clamp.row = a.row := by
      rcases Classical.em ((getColumn a.board a.col).cards = []) with hcc | hcc
      · rw [if_pos hcc] at h
        rw [hr0, if_pos (by rw [hcc]; rfl), h.2]
      · rw [if_neg hcc] at h
        have hp : 0 < (getColumn a.board a.col).cards.length := List.length_pos.mpr hcc
        rw [hr0, if_neg (Nat.pos_iff_ne_zero.mp hp)]
        exact min_eq_left (Nat.le_sub_one_of_lt h.2)
    exact app_ext _ _ (clamp_board a) hc hrow (clamp_detail a) (clamp_banner a)

theorem dst_col_none_iff (a : App) (dir : Int) :
    a.dst_col dir = none ↔
      ((a.col : Int) + dir < 0 ∨
        a.board.columns.length ≤ ((a.col : Int) + dir).toNat) := by
  unfold App.dst_col
  by_cases h1 : (a.col : Int) + dir < 0
  · simp [h1]
  · simp only [h1, if_false, or_false, false_or]
    by_cases h2 : ((a.col : Int) + dir).toNat < a.board.columns.length
    · simp [h2, Nat.not_le.mpr h2, h1]
    · simp [h2, Nat.not_lt.mp h2, h1]

theorem dst_col_some (a : App) (dir : Int) (d : Nat)
    (h : a.dst_col dir = some d) :
    ¬ (a.col : Int) + dir < 0 ∧
    d = ((a.col : Int) + dir).toNat ∧ d < a.board.columns.length := by
  unfold App.dst_col at h
  by_cases h1 : (a.col : Int) + dir < 0
  · rw [if_pos h1] at h
    exact absurd h (by simp)
  · rw [if_neg h1] at h
    by_cases h2 : ((a.col : Int) + dir).toNat < a.board.columns.length
    · rw [if_pos h2] at h
      exact ⟨h1, (Option.some_inj.mp h).symm, (Option.some_inj.mp h) ▸ h2⟩
    · rw [if_neg h2] at h
      exact absurd h (by simp)

/-! ## Claim theorems: cursor clamping (C7, C8) -/

/-- C7: for every board and every cursor — including arbitrary
out-of-range indices — `clamp` leaves the board untouched and produces
in-range indices: the column index is below `max num_columns 1` (a valid
index whenever columns exist, and `0` for an empty board), and the row
index is below `max focused_len 1` (a valid index whenever the focused
column is non-empty, and `0` otherwise — in particular `(0,0)` for an
empty board).  `clamp` is a total function, so it cannot panic. -/
theorem clamp_never_out_of_range (a : App) :
    a.clamp.board = a.board ∧
    a.clamp.col < max a.board.columns.length 1 ∧
    a.clamp.row < max (getColumn a.board a.clamp.col).cards.length 1 := by
  refine ⟨clamp_board a, ?_, ?_⟩
  · have hv := validCursor_clamp a
    unfold validCursor at hv
    rw [clamp_board] at hv
    rcases Classical.em (a.board.columns = []) with h | h
    · rw [if_pos h] at hv
      rw [hv.1]
      exact lt_of_lt_of_le Nat.zero_lt_one (le_max_right _ _)
    · rw [if_neg h] at hv
      exact lt_of_lt_of_le hv.1 (le_max_left _ _)
  · have hv := validCursor_clamp a
    unfold validCursor at hv
    rw [clamp_board] at hv
    rcases Classical.em (a.board.columns = []) with h | h
    · rw [if_pos h] at hv
      rw [hv.2]
      exact lt_of_lt_of_le Nat.zero_lt_one (le_max_right _ _)
    · rw [if_neg h] at hv
      rcases Classical.em ((getColumn a.board a.clamp.col).cards = []) with hc | hc
      · rw [if_pos hc] at hv
        rw [hv.2]
        exact lt_of_lt_of_le Nat.zero_lt_one (le_max_right _ _)
      · rw [if_neg hc] at hv
        exact lt_of_lt_of_le hv.2 (le_max_left _ _)

/-- C8: clamping a cursor that is already valid (per the invariant of
spec section 3) is a no-op, and — equivalently — `clamp` is idempotent. -/
theorem clamp_valid_noop_and_idempotent (a : App) :
    (validCursor a → a.clamp = a) ∧ a.clamp.clamp = a.clamp :=
  ⟨clamp_of_valid a, clamp_of_valid _ (validCursor_clamp a)⟩

/-- A sample board with two columns, as in the repository's tests. -/
def exBoardAB : Board :=
  ⟨[⟨"a", "A", [⟨"1", "t1", "d"⟩, ⟨"2", "t2", "d"⟩]⟩, ⟨"b", "B", []⟩]⟩

/-- Witness for C8 at the concrete board `exBoardAB` with the valid
cursor `(0, 0)`. -/
theorem clamp_valid_noop_witness :
    validCursor (App.new exBoardAB) ∧
    (App.new exBoardAB).clamp = App.new exBoardAB ∧
    (App.new exBoardAB).clamp.clamp = (App.new exBoardAB).clamp :=
  ⟨by decide, (clamp_valid_noop_and_idempotent (App.new exBoardAB)).1 (by decide),
    (clamp_valid_noop_and_idempotent (App.new exBoardAB)).2⟩

/-! ## Claim theorems: the no-op condition of optimistic_move (C4) -/

/-- C4 (counterexample): on the one-column board holding a single card,
with the out-of-range cursor `(5, 5)` and direction `+1`, the claimed
equivalence fails: the no-op condition holds (there is no column to the
right), and the move indeed returns `None`, but the state is *not*
unchanged — `optimistic_move` clamps the cursor to `(0, 0)` before
deciding that the move is impossible. -/
theorem optimistic_move_noop_iff_counterexample :
    ¬ (let a : App := ⟨⟨[⟨"a", "A", [⟨"1", "t", "d"⟩]⟩]⟩, 5, 5, false, none⟩
       ((a.optimistic_move 1).1 = none ∧ (a.optimistic_move 1).2 = a) ↔
         noOpCond a 1) := by
  decide

/-- C4 (amended): for every board and every *valid* cursor,
`optimistic_move dir` returns `None` and leaves the state completely
unchanged iff the board has no columns, or the focused column has no
cards, or there is no column in the requested direction.  (For an
out-of-range cursor the equivalence fails only because the cursor is
first clamped; the board is never changed on a no-op.) -/
theorem optimistic_move_noop_iff (a : App) (dir : Int) (h : validCursor a) :
    ((a.optimistic_move dir).1 = none ∧ (a.optimistic_move dir).2 = a) ↔
      noOpCond a dir := by
  have hca : a.clamp = a := clamp_of_valid a h
  unfold App.optimistic_move
  cases he : a.board.columns.isEmpty with
  | true =>
      have he2 : a.board.columns = [] := List.isEmpty_iff.mp he
      simp only [he, if_true]
      exact iff_of_true ⟨by trivial, by trivial⟩ (Or.inl he2)
  | false =>
      have he2 : a.board.columns ≠ [] := by
        intro hx
        rw [List.isEmpty_iff.mpr hx] at he
        cases he
      simp only [he, Bool.false_eq_true, if_false, hca]
      cases hd : a.dst_col dir with
      | none =>
          have h3 := (dst_col_none_iff a dir).mp hd
          exact iff_of_true ⟨by trivial, by trivial⟩ (Or.inr (Or.inr h3))
      | some d =>
          cases hsrc : (getColumn a.board a.col).cards.isEmpty with
          | true =>
              have hsrc2 : (getColumn a.board a.col).cards = [] :=
                List.isEmpty_iff.mp hsrc
              simp only [hsrc, if_true]
              exact iff_of_true ⟨by trivial, by trivial⟩ (Or.inr (Or.inl hsrc2))
          | false =>
              have hsrc2 : (getColumn a.board a.col).cards ≠ [] := by
                intro hx
                rw [List.isEmpty_iff.mpr hx] at hsrc
                cases hsrc
              simp only [hsrc, Bool.false_eq_true, if_false]
              refine iff_of_false (fun hx => ?_) (fun hx => ?_)
              · cases hx.1
              · obtain ⟨hge, hdd, hlt⟩ := dst_col_some a dir d hd
                rcases hx with h1 | h2 | h3 | h4
                · exact he2 h1
                · exact hsrc2 h2
                · exact hge h3
                · exact absurd (hdd ▸ hlt) (Nat.not_lt.mpr h4)

/-- Witness for the amended C4 at the two-column sample board with the
valid cursor `(0, 0)`: moving left is a no-op (no column to the left)
and the state is unchanged. -/
theorem optimistic_move_noop_iff_witness :
    validCursor (App.new exBoardAB) ∧
    (((App.new exBoardAB).optimistic_move (-1)).1 = none ∧
      ((App.new exBoardAB).optimistic_move (-1)).2 = App.new exBoardAB ↔
      noOpCond (App.new exBoardAB) (-1)) :=
  ⟨by decide, optimistic_move_noop_iff (App.new exBoardAB) (-1) (by decide)⟩

/-! ## Helper lemmas about column access and the successful move (C5) -/

theorem getColumn_set_self (b : Board) (i : Nat) (c : Column)
    (h : i < b.columns.length) : getColumn (setColumn b i c) i = c := by
  unfold getColumn setColumn
  rw [List.get?_set_eq_of_lt c h]
  rfl

theorem getColumn_set_ne (b : Board) (i j : Nat) (c : Column)
    (h : i ≠ j) : getColumn (setColumn b i c) j = getColumn b j := by
  unfold getColumn setColumn
  rw [List.get?_set_ne c _ h]

theorem setColumn_length (b : Board) (i : Nat) (c : Column) :
    (setColumn b i c).columns.length = b.columns.length := by
  unfold setColumn
  exact List.length_set b.columns i c

theorem clamp_col_lt (a : App) (h : a.board.columns ≠ []) :
    a.clamp.col < a.board.columns.length := by
  have hv := validCursor_clamp a
  unfold validCursor at hv
  rw [clamp_board, if_neg h] at hv
  exact hv.1

theorem clamp_row_lt (a : App) (h : a.board.columns ≠ [])
    (h2 : (getColumn a.board a.clamp.col).cards ≠ []) :
    a.clamp.row < (getColumn a.board a.clamp.col).cards.length := by
  have hv := validCursor_clamp a
  unfold validCursor at hv
  rw [clamp_board, if_neg h, if_neg h2] at hv
  exact hv.2

/-- C5: whenever `optimistic_move d` (with `d` one of the two directions
the program issues) succeeds, the moved card is the one at the focused
position (the clamped cursor — exactly the card the renderer highlights),
it is removed from its source column and appended as the last card of
the destination column, the cursor is set to the destination column and
the destination's new last row — so it points exactly at the moved card
— and the returned pair is the card's id and the destination column's
id. -/
theorem optimistic_move_some_spec (a : App) (dir : Int) (cid colid : String)
    (a2 : App) (hdir : dir = -1 ∨ dir = 1)
    (h : a.optimistic_move dir = (some (cid, colid), a2)) :
    ∃ dst : Nat,
      a.clamp.dst_col dir = some dst ∧
      dst ≠ a.clamp.col ∧
      cid = ((getColumn a.board a.clamp.col).cards.getD a.clamp.row default).id ∧
      colid = (getColumn a.board dst).id ∧
      a2.col = dst ∧
      (getColumn a2.board dst).cards =
        (getColumn a.board dst).cards ++
          [(getColumn a.board a.clamp.col).cards.getD a.clamp.row default] ∧
      (getColumn a2.board a.clamp.col).cards =
        (getColumn a.board a.clamp.col).cards.eraseIdx a.clamp.row ∧
      a2.row = (getColumn a2.board dst).cards.length - 1 ∧
      (getColumn a2.board a2.col).cards.getD a2.row default =
        (getColumn a.board a.clamp.col).cards.getD a.clamp.row default := by
  have hb := clamp_board a
  unfold App.optimistic_move at h
  cases he : a.board.columns.isEmpty with
  | true =>
      rw [he] at h
      simp at h
  | false =>
      rw [he] at h
      simp only [Bool.false_eq_true, if_false] at h
      have he2 : a.board.columns ≠ [] := by
        intro hx
        rw [List.isEmpty_iff.mpr hx] at he
        cases he
      cases hd : a.clamp.dst_col dir with
      | none =>
          rw [hd] at h
          simp at h
      | some dst =>
          rw [hd] at h
          cases hsrc : (getColumn a.clamp.board a.clamp.col).cards.isEmpty with
          | true =>
              rw [hsrc] at h
              simp at h
          | false =>
              rw [hsrc] at h
              simp only [Bool.false_eq_true, if_false] at h
              have hsrc2 : (getColumn a.board a.clamp.col).cards ≠ [] := by
                rw [hb] at hsrc
                intro hx
                rw [List.isEmpty_iff.mpr hx] at hsrc
                cases hsrc
              have hsrclt : a.clamp.col < a.board.columns.length := clamp_col_lt a he2
              obtain ⟨hge, hdd, hdlt0⟩ := dst_col_some a.clamp dir dst hd
              rw [hb] at hdlt0
              have hne : dst ≠ a.clamp.col := by
                rcases hdir with h1 | h1 <;> subst h1 <;> omega
              rw [Prod.mk.injEq, Option.some_inj, Prod.mk.injEq] at h
              obtain ⟨⟨hcid, hcolid⟩, ha2⟩ := h
              refine ⟨dst, rfl, hne, ?_⟩
              subst ha2
              set card :=
                (getColumn a.clamp.board a.clamp.col).cards.getD a.clamp.row default
                with hcard
              set colErase : Column :=
                { getColumn a.clamp.board a.clamp.col with
                    cards :=
                      (getColumn a.clamp.board a.clamp.col).cards.eraseIdx a.clamp.row }
                with hcolErase
              set b1 := setColumn a.clamp.board a.clamp.col colErase with hb1
              have hlen1 : b1.columns.length = a.board.columns.length := by
                rw [hb1, setColumn_length, hb]
              have hg1dst : getColumn b1 dst = getColumn a.board dst := by
                rw [hb1, getColumn_set_ne _ _ _ _ (fun hx => hne hx.symm), hb]
              have hg1src : getColumn b1 a.clamp.col = colErase :=
                getColumn_set_self _ _ _ (by rw [hb]; exact hsrclt)
              set colPush : Column :=
                { getColumn b1 dst with cards := (getColumn b1 dst).cards ++ [card] }
                with hcolPush
              set b2 := setColumn b1 dst colPush with hb2
              have hg2dst : getColumn b2 dst = colPush :=
                getColumn_set_self _ _ _ (by rw [hlen1]; exact hdlt0)
              have hg2src : getColumn b2 a.clamp.col = colErase := by
                rw [hb2, getColumn_set_ne _ _ _ _ hne, hg1src]
              have hcards2 : (getColumn b2 dst).cards =
                  (getColumn a.board dst).cards ++ [card] := by
                rw [hg2dst, hcolPush, hg1dst]
              refine ⟨?_, ?_, rfl, ?_, ?_, ?_, ?_⟩
              · rw [← hcid, hcard, hb]
              · rw [← hcolid, hg1dst]
              · rw [hcards2, hcard, hb]
              · rw [hg2src, hcolErase, hb]
              · rfl
              · show (getColumn b2 dst).cards.getD
                    ((getColumn b2 dst).cards.length - 1) default = _
                rw [hcards2]
                rw [List.length_append, List.length_singleton, Nat.add_sub_cancel]
                rw [List.getD_eq_get?, List.get?_concat_length]
                rw [Option.getD_some, hcard, hb]


/-- The result state of moving the first card of `exBoardAB` one column
to the right. -/
def exMovedApp : App :=
  ⟨⟨[⟨"a", "A", [⟨"2", "t2", "d"⟩]⟩, ⟨"b", "B", [⟨"1", "t1", "d"⟩]⟩]⟩,
    1, 0, false, none⟩

/-- Witness for C5: moving right from `(0, 0)` on the two-column sample
board moves card `"1"` into column `"b"` and focuses it. -/
theorem optimistic_move_some_spec_witness :
    ∃ dst : Nat,
      (App.new exBoardAB).clamp.dst_col 1 = some dst ∧
      dst ≠ (App.new exBoardAB).clamp.col ∧
      "1" = ((getColumn (App.new exBoardAB).board
        (App.new exBoardAB).clamp.col).cards.getD
          (App.new exBoardAB).clamp.row default).id ∧
      "b" = (getColumn (App.new exBoardAB).board dst).id ∧
      exMovedApp.col = dst ∧
      (getColumn exMovedApp.board dst).cards =
        (getColumn (App.new exBoardAB).board dst).cards ++
          [(getColumn (App.new exBoardAB).board
            (App.new exBoardAB).clamp.col).cards.getD
              (App.new exBoardAB).clamp.row default] ∧
      (getColumn exMovedApp.board (App.new exBoardAB).clamp.col).cards =
        (getColumn (App.new exBoardAB).board
          (App.new exBoardAB).clamp.col).cards.eraseIdx
            (App.new exBoardAB).clamp.row ∧
      exMovedApp.row = (getColumn exMovedApp.board dst).cards.length - 1 ∧
      (getColumn exMovedApp.board exMovedApp.col).cards.getD
          exMovedApp.row default =
        (getColumn (App.new exBoardAB).board
          (App.new exBoardAB).clamp.col).cards.getD
            (App.new exBoardAB).clamp.row default :=
  optimistic_move_some_spec (App.new exBoardAB) 1 "1" "b" exMovedApp
    (Or.inr rfl) (by decide)

/-! ## Claim theorems: card conservation (C9) -/

theorem sum_cards_set (l : List Column) (i : Nat) (c : Column)
    (h : i < l.length) :
    ((l.set i c).map (fun x => (x.cards : Multiset Card))).sum
      + ((l.getD i default).cards : Multiset Card) =
    (l.map (fun x => (x.cards : Multiset Card))).sum
      + (c.cards : Multiset Card) := by
  induction l generalizing i with
  | nil => exact absurd h (by simp)
  | cons x xs ih =>
      cases i with
      | zero =>
          simp only [List.set, List.map_cons, List.sum_cons, List.getD_cons_zero]
          abel
      | succ n =>
          have h2 : n < xs.length := by simpa using h
          simp only [List.set, List.map_cons, List.sum_cons, List.getD_cons_succ]
          rw [add_assoc, ih n h2, ← add_assoc]

theorem boardCards_set (b : Board) (i : Nat) (c : Column)
    (h : i < b.columns.length) :
    boardCards (setColumn b i c) + ((getColumn b i).cards : Multiset Card) =
    boardCards b + (c.cards : Multiset Card) := by
  have h2 := sum_cards_set b.columns i c h
  rw [List.getD_eq_get?] at h2
  exact h2

theorem getD_cons_eraseIdx_perm (l : List Card) (i : Nat)
    (h : i < l.length) : l.Perm (l.getD i default :: l.eraseIdx i) := by
  induction l generalizing i with
  | nil => exact absurd h (by simp)
  | cons x xs ih =>
      cases i with
      | zero => exact List.Perm.refl _
      | succ n =>
          have h2 : n < xs.length := by simpa using h
          have hc := (ih n h2).cons x
          have hswap := List.Perm.swap (xs.getD n default) x (xs.eraseIdx n)
          simp only [List.getD_cons_succ, List.eraseIdx_cons_succ]
          exact hc.trans hswap

/-- The board produced by the successful branch of `optimistic_move`
(remove at `row` in column `src`, then append the removed card to
column `dst`) carries exactly the same multiset of cards. -/
theorem boardCards_move (b : Board) (src dst row : Nat)
    (hsrc : src < b.columns.length) (hdst : dst < b.columns.length)
    (hrow : row < (getColumn b src).cards.length) :
    boardCards
      (setColumn
        (setColumn b src
          { getColumn b src with
              cards := (getColumn b src).cards.eraseIdx row })
        dst
        { getColumn (setColumn b src
            { getColumn b src with
                cards := (getColumn b src).cards.eraseIdx row }) dst with
            cards := (getColumn (setColumn b src
              { getColumn b src with
                  cards := (getColumn b src).cards.eraseIdx row }) dst).cards ++
              [(getColumn b src).cards.getD row default] }) =
    boardCards b := by
  set card := (getColumn b src).cards.getD row default with hcard
  set colErase : Column :=
    { getColumn b src with cards := (getColumn b src).cards.eraseIdx row }
    with hcolErase
  set b1 := setColumn b src colErase with hb1
  set colPush : Column :=
    { getColumn b1 dst with cards := (getColumn b1 dst).cards ++ [card] }
    with hcolPush
  have hlen1 : b1.columns.length = b.columns.length := by
    rw [hb1, setColumn_length]
  have hE : ((getColumn b src).cards : Multiset Card) =
      (([card] : List Card) : Multiset Card) +
        (((getColumn b src).cards.eraseIdx row : List Card) : Multiset Card) := by
    have hp := getD_cons_eraseIdx_perm (getColumn b src).cards row hrow
    have hq : ((getColumn b src).cards : Multiset Card) =
        ((card :: (getColumn b src).cards.eraseIdx row : List Card) : Multiset Card) :=
      Multiset.coe_eq_coe.mpr hp
    rw [hq, Multiset.coe_add]
    rfl
  have h5 : boardCards b1 + (([card] : List Card) : Multiset Card) = boardCards b := by
    have heq2 := boardCards_set b src colErase hsrc
    rw [hE] at heq2
    have heq2b : (boardCards b1 + (([card] : List Card) : Multiset Card)) +
        (((getColumn b src).cards.eraseIdx row : List Card) : Multiset Card) =
        boardCards b +
        (((getColumn b src).cards.eraseIdx row : List Card) : Multiset Card) := by
      rw [add_assoc]
      exact heq2
    exact add_right_cancel heq2b
  have h6 : boardCards (setColumn b1 dst colPush) =
      boardCards b1 + (([card] : List Card) : Multiset Card) := by
    have heq1 := boardCards_set b1 dst colPush (by rw [hlen1]; exact hdst)
    have hsplit : ((colPush.cards : List Card) : Multiset Card) =
        ((getColumn b1 dst).cards : Multiset Card) +
          (([card] : List Card) : Multiset Card) := by
      rw [hcolPush, Multiset.coe_add]
    rw [hsplit] at heq1
    have heq1b : boardCards (setColumn b1 dst colPush) +
        ((getColumn b1 dst).cards : Multiset Card) =
        (boardCards b1 + (([card] : List Card) : Multiset Card)) +
          ((getColumn b1 dst).cards : Multiset Card) := by
      rw [heq1]
      abel
    exact add_right_cancel heq1b
  exact h6.trans h5

theorem optimistic_move_board_conservation (a : App) (dir : Int) :
    boardCards (a.optimistic_move dir).2.board = boardCards a.board := by
  unfold App.optimistic_move
  cases he : a.board.columns.isEmpty with
  | true => rfl
  | false =>
      simp only [he, Bool.false_eq_true, if_false]
      have he2 : a.board.columns ≠ [] := by
        intro hx
        rw [List.isEmpty_iff.mpr hx] at he
        cases he
      cases hd : a.clamp.dst_col dir with
      | none =>
          show boardCards a.clamp.board = boardCards a.board
          rw [clamp_board]
      | some dst =>
          cases hsrc : (getColumn a.clamp.board a.clamp.col).cards.isEmpty with
          | true =>
              simp only [hsrc, if_true]
              show boardCards a.clamp.board = boardCards a.board
              rw [clamp_board]
          | false =>
              simp only [hsrc, Bool.false_eq_true, if_false]
              have hsrc2 : (getColumn a.board a.clamp.col).cards ≠ [] := by
                rw [← clamp_board a]
                intro hx
                rw [List.isEmpty_iff.mpr hx] at hsrc
                cases hsrc
              have hsrclt : a.clamp.col < a.board.columns.length :=
                clamp_col_lt a he2
              obtain ⟨hge, hdd, hdlt⟩ := dst_col_some a.clamp dir dst hd
              rw [clamp_board] at hdlt
              have hrow : a.clamp.row <
                  (getColumn a.clamp.board a.clamp.col).cards.length := by
                rw [clamp_board]
                exact clamp_row_lt a he2 hsrc2
              have hm := boardCards_move a.clamp.board a.clamp.col dst a.clamp.row
                (by rw [clamp_board]; exact hsrclt)
                (by rw [clamp_board]; exact hdlt) hrow
              exact hm.trans (congrArg boardCards (clamp_board a))

/-- C9: `optimistic_move` conserves the multiset of cards across the
whole board — no card is duplicated, created, or lost — and therefore
the global card-id uniqueness invariant (each id occurring at most once
on the board) holds after the move exactly when it held before. -/
theorem optimistic_move_conserves_cards (a : App) (dir : Int) :
    boardCards (a.optimistic_move dir).2.board = boardCards a.board ∧
    (((boardCards (a.optimistic_move dir).2.board).map Card.id).Nodup ↔
      ((boardCards a.board).map Card.id).Nodup) := by
  refine ⟨optimistic_move_board_conservation a dir, ?_⟩
  rw [optimistic_move_board_conservation a dir]

/-! ## Claim theorems: the orchestration loop (C1, C2, C3, C6, C10) -/

theorem handleOutcome_resync (s : LoopState) (b : Board) :
    handleOutcome s (.msg (.ok (some b))) =
      { s with
          app := { App.clamp { s.app with board := b } with
            banner :=
              if s.quitting then none
              else some "Move failed: reloaded board (optimistic state corrected)" }
          queue := []
          inFlight := false } := by
  unfold handleOutcome update_quit_banner
  cases hq : s.quitting <;> simp [hq]

/-- C3 (counterexample): in a draining state with a move in flight and a
non-empty queue, a Rejected-with-resync outcome does replace the board
and empty the queue, but the reload notice is *not* surfaced: the
quit-banner update immediately clears it (`banner = none`), because the
pending count has dropped to zero. -/
theorem resync_notice_counterexample :
    (handleOutcome ⟨App.new exBoardAB, true, [("q", "w")], true⟩
        (.msg (.ok (some ⟨[⟨"z", "Z", []⟩]⟩)))).app.banner = none ∧
    (handleOutcome ⟨App.new exBoardAB, true, [("q", "w")], true⟩
        (.msg (.ok (some ⟨[⟨"z", "Z", []⟩]⟩)))).app.board = ⟨[⟨"z", "Z", []⟩]⟩ ∧
    (handleOutcome ⟨App.new exBoardAB, true, [("q", "w")], true⟩
        (.msg (.ok (some ⟨[⟨"z", "Z", []⟩]⟩)))).queue = [] := by
  decide

/-- C3 (amended): for every in-flight state and any queue contents, a
Rejected-with-resync outcome replaces the in-memory Board wholesale with
the snapshot, re-clamps the cursor against it, empties the pending queue
regardless of its prior contents and clears the in-flight slot; the
reload notice is surfaced whenever the orchestrator is not draining —
when draining, the quit-banner update clears the notice (zero pending)
and the loop exits on that very poll cycle. -/
theorem resync_wholesale_reload (s : LoopState) (b : Board)
    (h : s.inFlight = true) :
    (handleOutcome s (.msg (.ok (some b)))).app.board = b ∧
    (handleOutcome s (.msg (.ok (some b)))).app.col =
      (App.clamp { s.app with board := b }).col ∧
    (handleOutcome s (.msg (.ok (some b)))).app.row =
      (App.clamp { s.app with board := b }).row ∧
    (handleOutcome s (.msg (.ok (some b)))).queue = [] ∧
    (handleOutcome s (.msg (.ok (some b)))).inFlight = false ∧
    (handleOutcome s (.msg (.ok (some b)))).quitting = s.quitting ∧
    (s.quitting = false →
      (handleOutcome s (.msg (.ok (some b)))).app.banner =
        some "Move failed: reloaded board (optimistic state corrected)") ∧
    (s.quitting = true → ∀ (inp : Option Action) (ld : Except String Board),
      step s ⟨.msg (.ok (some b)), inp, ld⟩ = none) := by
  rw [handleOutcome_resync]
  refine ⟨clamp_board _, rfl, rfl, rfl, rfl, rfl, ?_, ?_⟩
  · intro hq
    simp [hq]
  · intro hq inp ld
    unfold step
    rw [h, handleOutcome_resync]
    simp [hq]

/-- Witness for the amended C3 at a concrete busy, non-draining state
with two queued moves and an out-of-range cursor. -/
theorem resync_wholesale_reload_witness :
    (⟨{ App.new exBoardAB with col := 1, row := 5 }, true,
        [("q", "w"), ("r", "t")], false⟩ : LoopState).inFlight = true ∧
    ((handleOutcome ⟨{ App.new exBoardAB with col := 1, row := 5 }, true,
        [("q", "w"), ("r", "t")], false⟩
        (.msg (.ok (some ⟨[⟨"z", "Z", []⟩]⟩)))).app.board = ⟨[⟨"z", "Z", []⟩]⟩ ∧
      (handleOutcome ⟨{ App.new exBoardAB with col := 1, row := 5 }, true,
        [("q", "w"), ("r", "t")], false⟩
        (.msg (.ok (some ⟨[⟨"z", "Z", []⟩]⟩)))).app.col =
        (App.clamp { ({ App.new exBoardAB with col := 1, row := 5 } : App) with
          board := (⟨[⟨"z", "Z", []⟩]⟩ : Board) }).col ∧
      (handleOutcome ⟨{ App.new exBoardAB with col := 1, row := 5 }, true,
        [("q", "w"), ("r", "t")], false⟩
        (.msg (.ok (some ⟨[⟨"z", "Z", []⟩]⟩)))).app.row =
        (App.clamp { ({ App.new exBoardAB with col := 1, row := 5 } : App) with
          board := (⟨[⟨"z", "Z", []⟩]⟩ : Board) }).row ∧
      (handleOutcome ⟨{ App.new exBoardAB with col := 1, row := 5 }, true,
        [("q", "w"), ("r", "t")], false⟩
        (.msg (.ok (some ⟨[⟨"z", "Z", []⟩]⟩)))).queue = [] ∧
      (handleOutcome ⟨{ App.new exBoardAB with col := 1, row := 5 }, true,
        [("q", "w"), ("r", "t")], false⟩
        (.msg (.ok (some ⟨[⟨"z", "Z", []⟩]⟩)))).inFlight = false ∧
      (handleOutcome ⟨{ App.new exBoardAB with col := 1, row := 5 }, true,
        [("q", "w"), ("r", "t")], false⟩
        (.msg (.ok (some ⟨[⟨"z", "Z", []⟩]⟩)))).quitting =
        (⟨{ App.new exBoardAB with col := 1, row := 5 }, true,
          [("q", "w"), ("r", "t")], false⟩ : LoopState).quitting ∧
      ((⟨{ App.new exBoardAB with col := 1, row := 5 }, true,
          [("q", "w"), ("r", "t")], false⟩ : LoopState).quitting = false →
        (handleOutcome ⟨{ App.new exBoardAB with col := 1, row := 5 }, true,
          [("q", "w"), ("r", "t")], false⟩
          (.msg (.ok (some ⟨[⟨"z", "Z", []⟩]⟩)))).app.banner =
          some "Move failed: reloaded board (optimistic state corrected)") ∧
      ((⟨{ App.new exBoardAB with col := 1, row := 5 }, true,
          [("q", "w"), ("r", "t")], false⟩ : LoopState).quitting = true →
        ∀ (inp : Option Action) (ld : Except String Board),
          step ⟨{ App.new exBoardAB with col := 1, row := 5 }, true,
            [("q", "w"), ("r", "t")], false⟩
            ⟨.msg (.ok (some ⟨[⟨"z", "Z", []⟩]⟩)), inp, ld⟩ = none)) :=
  ⟨rfl, resync_wholesale_reload
    ⟨{ App.new exBoardAB with col := 1, row := 5 }, true,
      [("q", "w"), ("r", "t")], false⟩ ⟨[⟨"z", "Z", []⟩]⟩ rfl⟩

/-- C10: while not quitting, a successful `Refresh` replaces the board
and unconditionally resets the cursor to `(0, 0)` — it is not preserved
or merely clamped — and clears the banner; a failed `Refresh` leaves the
board and cursor untouched and only sets the failure notice.  (While
draining, `Refresh` is ignored entirely.) -/
theorem refresh_resets_cursor (s : LoopState) (r : Except String Board)
    (h : s.quitting = false) :
    handleInput s .Refresh r =
      some (match r with
        | .ok b => { s with app :=
            { s.app with board := b, col := 0, row := 0, banner := none } }
        | .error e => { s with app :=
            { s.app with banner := some ("Refresh failed: " ++ toString e) } }) := by
  unfold handleInput
  cases r <;> simp [h]

/-- The sample app used by the C10 witness: non-trivial cursor and a
stale banner. -/
def exRefreshApp : App :=
  { App.new exBoardAB with col := 1, row := 1, banner := some "old" }

/-- A single-column snapshot board used by several witnesses. -/
def exSnapBoard : Board := ⟨[⟨"z", "Z", []⟩]⟩

/-- Witness for C10: a successful refresh from a non-trivial cursor and
banner resets both, and a failed refresh leaves board and cursor
untouched. -/
theorem refresh_resets_cursor_witness :
    (⟨exRefreshApp, false, [], false⟩ : LoopState).quitting = false ∧
    handleInput ⟨exRefreshApp, false, [], false⟩ .Refresh (.ok exSnapBoard) =
      some ⟨{ exRefreshApp with board := exSnapBoard, col := 0, row := 0, banner := none },
        false, [], false⟩ ∧
    handleInput ⟨exRefreshApp, false, [], false⟩ .Refresh (.error "boom") =
      some ⟨{ exRefreshApp with banner := some "Refresh failed: boom" },
        false, [], false⟩ :=
  ⟨rfl,
    refresh_resets_cursor ⟨exRefreshApp, false, [], false⟩ (.ok exSnapBoard) rfl,
    refresh_resets_cursor ⟨exRefreshApp, false, [], false⟩ (.error "boom") rfl⟩

/-- A busy state whose pending queue is exactly at the 64-entry
capacity. -/
def exFullQueueState : LoopState :=
  ⟨App.new exBoardAB, true, List.replicate 64 ("x", "y"), false⟩

/-- C1 (counterexample): with a move in flight and the queue at its
64-entry capacity, a `MoveRight` command — which would otherwise move
card "1" from column "a" to column "b" — changes nothing but the
banner: the optimistic board mutation is *not* applied (the board and
cursor are untouched), nothing is enqueued, and the queue-full notice is
surfaced.  The second conjunct shows the optimistic move would have been
a genuine board change, so dropping it is observable. -/
theorem queue_full_counterexample :
    handleInput exFullQueueState .MoveRight (.error "e") =
      some { exFullQueueState with app := { exFullQueueState.app with
        banner := some "Move queue full — too many pending moves" } } ∧
    (exFullQueueState.app.optimistic_move 1).2.board ≠
      exFullQueueState.app.board := by
  decide

/-- C1 (amended): with a move in flight and the pending queue at (or
beyond) capacity, a further `MoveLeft`/`MoveRight` while not quitting is
dropped entirely: `optimistic_move` is never called, so the board,
cursor and queue are all unchanged (in particular the queue never
exceeds capacity) and only the queue-full notice is surfaced. -/
theorem queue_full_drops_move (s : LoopState) (r : Except String Board)
    (a : Action) (hin : s.inFlight = true)
    (hq : MAX_QUEUE_SIZE ≤ s.queue.length) (hnq : s.quitting = false)
    (ha : a = .MoveLeft ∨ a = .MoveRight) :
    handleInput s a r =
      some { s with app := { s.app with
        banner := some "Move queue full — too many pending moves" } } := by
  rcases ha with h | h <;> subst h <;>
    simp [handleInput, handleMoveCmd, hin, hq, hnq]

/-- Witness for the amended C1 at the capacity-filled concrete state. -/
theorem queue_full_drops_move_witness :
    exFullQueueState.inFlight = true ∧
    MAX_QUEUE_SIZE ≤ exFullQueueState.queue.length ∧
    exFullQueueState.quitting = false ∧
    handleInput exFullQueueState .MoveLeft (.error "e") =
      some { exFullQueueState with app := { exFullQueueState.app with
        banner := some "Move queue full — too many pending moves" } } :=
  ⟨rfl, by decide, rfl,
    queue_full_drops_move exFullQueueState (.error "e") .MoveLeft rfl
      (by decide) rfl (Or.inl rfl)⟩

/-- The stranded drain configuration: quitting, nothing in flight, but
a non-empty pending queue. -/
def stuckDrain (s : LoopState) : Prop :=
  s.quitting = true ∧ s.inFlight = false ∧ s.queue ≠ []

theorem handleInput_stuck (s : LoopState) (a : Action)
    (r : Except String Board) (hq : s.quitting = true) (hne : s.queue ≠ []) :
    ∃ s2, handleInput s a r = some s2 ∧ s2.quitting = true ∧
      s2.inFlight = s.inFlight ∧ s2.queue = s.queue := by
  cases a with
  | MoveLeft => exact ⟨s, by simp [handleInput, hq], hq, rfl, rfl⟩
  | MoveRight => exact ⟨s, by simp [handleInput, hq], hq, rfl, rfl⟩
  | Refresh => exact ⟨s, by simp [handleInput, hq], hq, rfl, rfl⟩
  | Quit =>
      exact ⟨⟨update_quit_banner s.app true s.queue.length s.inFlight,
          s.inFlight, s.queue, true⟩,
        by simp [handleInput, App.apply, hne], rfl, rfl, rfl⟩
  | CloseOrQuit =>
      cases hd : s.app.detail_open with
      | true =>
          exact ⟨{ s with app := { s.app with detail_open := false } },
            by simp [handleInput, App.apply, hd], hq, rfl, rfl⟩
      | false =>
          exact ⟨⟨update_quit_banner s.app true s.queue.length s.inFlight,
              s.inFlight, s.queue, true⟩,
            by simp [handleInput, App.apply, hd, hne], rfl, rfl, rfl⟩
  | FocusLeft =>
      exact ⟨{ s with app := s.app.focus (-1) },
        by simp [handleInput, App.apply], hq, rfl, rfl⟩
  | FocusRight =>
      exact ⟨{ s with app := s.app.focus 1 },
        by simp [handleInput, App.apply], hq, rfl, rfl⟩
  | SelectUp =>
      exact ⟨{ s with app := s.app.select (-1) },
        by simp [handleInput, App.apply], hq, rfl, rfl⟩
  | SelectDown =>
      exact ⟨{ s with app := s.app.select 1 },
        by simp [handleInput, App.apply], hq, rfl, rfl⟩
  | ToggleDetail =>
      exact ⟨{ s with app := { s.app with detail_open := !s.app.detail_open } },
        by simp [handleInput, App.apply], hq, rfl, rfl⟩

theorem step_stuck (s : LoopState) (h : stuckDrain s) (c : Cycle) :
    ∃ s2, step s c = some s2 ∧ stuckDrain s2 := by
  obtain ⟨hq, hf, hne⟩ := h
  unfold step
  rw [hf]
  simp only [Bool.false_eq_true, if_false]
  rw [if_neg (by simp [hne])]
  cases c.input with
  | none => exact ⟨s, rfl, hq, hf, hne⟩
  | some a =>
      obtain ⟨s2, hs2, hq2, hf2, hqu2⟩ := handleInput_stuck s a c.load hq hne
      exact ⟨s2, hs2, hq2, hf2.trans hf, hqu2 ▸ hne⟩

theorem runLoop_stuck (s : LoopState) (h : stuckDrain s) (cs : List Cycle) :
    ∃ s2, runLoop s cs = some s2 ∧ stuckDrain s2 := by
  induction cs generalizing s with
  | nil => exact ⟨s, rfl, h⟩
  | cons c rest ih =>
      obtain ⟨s1, hst, h1⟩ := step_stuck s h c
      unfold runLoop
      rw [hst]
      exact ih s1 h1

/-- C2 (code evaluated at the failing input): when the worker channel
disconnects without a message while the orchestrator is draining with
one queued move, the `Disconnected` arm clears the in-flight slot and
surfaces a notice but does *not* discard the pending queue — and from
the resulting state no sequence of further poll cycles can ever make
the loop exit, because nothing while draining can dispatch or drop the
stranded queue entry, so the drain-exit condition never becomes true. -/
theorem worker_disconnect_keeps_queue :
    (handleOutcome ⟨App.new exBoardAB, true, [("c1", "cb")], true⟩
      .disconnected).queue = [("c1", "cb")] ∧
    (handleOutcome ⟨App.new exBoardAB, true, [("c1", "cb")], true⟩
      .disconnected).inFlight = false ∧
    (handleOutcome ⟨App.new exBoardAB, true, [("c1", "cb")], true⟩
      .disconnected).quitting = true ∧
    ∀ cs : List Cycle,
      runLoop (handleOutcome ⟨App.new exBoardAB, true, [("c1", "cb")], true⟩
        .disconnected) cs ≠ none := by
  refine ⟨rfl, rfl, rfl, ?_⟩
  intro cs
  obtain ⟨s2, hr, _⟩ := runLoop_stuck
    (handleOutcome ⟨App.new exBoardAB, true, [("c1", "cb")], true⟩ .disconnected)
    ⟨rfl, rfl, by decide⟩ cs
  rw [hr]
  simp

/-- C6 (code evaluated at the failing input): from a draining state with
a move in flight and one queued move, the poll cycle that delivers the
worker's channel disconnection — the last outcome this in-flight slot
will ever produce — does not exit, and from the resulting state *every*
further sequence of poll cycles keeps the loop running: termination is
not reached within any bounded number of cycles after the last outcome.
(The exit at src/main.rs line 141 requires an empty queue, and the
disconnection arm strands the queue entry forever.) -/
theorem drain_unbounded_after_disconnect :
    ∃ s1 : LoopState,
      step ⟨App.new exBoardAB, true, [("c2", "cc")], true⟩
        ⟨.disconnected, none, .error ""⟩ = some s1 ∧
      ∀ cs : List Cycle, runLoop s1 cs ≠ none := by
  refine ⟨handleOutcome ⟨App.new exBoardAB, true, [("c2", "cc")], true⟩
    .disconnected, ?_, ?_⟩
  · unfold step
    simp [handleOutcome, update_quit_banner]
  · intro cs
    obtain ⟨s2, hr, _⟩ := runLoop_stuck
      (handleOutcome ⟨App.new exBoardAB, true, [("c2", "cc")], true⟩
        .disconnected)
      ⟨rfl, rfl, by decide⟩ cs
    rw [hr]
    simp

end Flow
